import Mathlib

/-!
Verification of the order-intent resolution and transaction-argument
compilation engine of the Dexlyn perpetuals trading bot
(src/dexlyn_bot_sdk.py), plus the strategy cycle driver.

Numeric model: the Python code carries USD amounts and prices as decimal
numbers read from JSON; they are embedded as exact rationals.  Python
`int(x)` truncates toward zero, which is modelled by `ratTrunc`.
Machine-level u64 wrapping never occurs for the values involved, and the
code performs no modular arithmetic, so unit counts are plain integers.
-/

namespace Dexlyn

/-- Truncation toward zero on rationals, the semantics of Python `int()`
applied to a number. -/
def ratTrunc (q : ℚ) : ℤ := if 0 ≤ q then ⌊q⌋ else ⌈q⌉

/-- Network configuration record (network.json entries; see
DEFAULT_NETWORK in src/dexlyn_bot_sdk.py). -/
structure NetworkConfig where
  contract_address : String
  collateral_token : String
  size_decimals : ℕ
  collateral_decimals : ℕ
  price_decimals : ℕ
deriving DecidableEq

/-- The testnet entry of DEFAULT_NETWORK. -/
def testnetConfig : NetworkConfig :=
  { contract_address := "0xae38541466939b577823389765d966ba206b19be954fc87011fa10dc91e2fe0f"
    collateral_token := "0x4f316ce2960250e7ac1206a07d07b2cbef3897d3cb8c12369d30c08ecd39c61c::tusdc_coin::TUSDC"
    size_decimals := 6
    collateral_decimals := 6
    price_decimals := 10 }

/-- Trading-pair configuration record (pairs.json entries; see
DEFAULT_PAIRS in src/dexlyn_bot_sdk.py). -/
structure PairConfig where
  type_arg : String
  description : String
  available_testnet : Bool
  available_mainnet : Bool
  default_size_usd : ℚ
  default_collateral_usd : ℚ
  default_price : ℚ
  min_size_usd : ℚ
  max_size_usd : ℚ
deriving DecidableEq

/-- The ETH_USD entry of DEFAULT_PAIRS. -/
def ethPair : PairConfig :=
  { type_arg := "ETH_USD"
    description := "Ethereum vs US Dollar"
    available_testnet := true
    available_mainnet := true
    default_size_usd := 300
    default_collateral_usd := 3
    default_price := 3500
    min_size_usd := 300
    max_size_usd := 500000 }

/-- Wallet configuration record (wallets.json entries). -/
structure WalletConfig where
  address : String
  private_key : String
deriving DecidableEq

/-- The trader_1 entry of DEFAULT_WALLETS. -/
def trader1 : WalletConfig :=
  { address := "0xyourownaddresshere", private_key := "your_private_key_hex_here" }

/-- The fields of the main configuration (config.json) that the compiler
and the cycle driver read: orders.auto_calculate_execution_guard and the
two timing delays. -/
structure MainConfig where
  auto_calculate_execution_guard : Bool
  sleep_between_orders : ℚ
  sleep_between_cycles : ℚ
deriving DecidableEq

/-- DEFAULT_CONFIG restricted to the fields above. -/
def defaultMainConfig : MainConfig :=
  { auto_calculate_execution_guard := true
    sleep_between_orders := 6
    sleep_between_cycles := 10 }

/-- The custom_parameters object of an order intent: every key the custom
path of build_custom_order_arguments reads, each optional because the
Python dict may lack it. -/
structure CustomParams where
  size_units : Option ℤ
  collateral_units : Option ℤ
  price_units : Option ℤ
  is_long : Option Bool
  is_increase : Option Bool
  is_market : Option Bool
  can_execute_above_price : Option Bool
  stop_loss_units : Option ℤ
  take_profit_units : Option ℤ
deriving DecidableEq

/-- An order intent record (one entry of a strategy order list).  Every
field the compiler reads is present; optional JSON keys are Options. -/
structure OrderIntent where
  action : String
  name : String
  pair : String
  wallet : String
  size_usd : Option ℚ
  size_units : Option ℤ
  collateral_usd : Option ℚ
  collateral_units : Option ℤ
  price : Option ℚ
  price_units : Option ℤ
  is_long : Option Bool
  is_increase : Option Bool
  is_market : Option Bool
  can_execute_above_price : Option Bool
  stop_loss : Option ℚ
  stop_loss_units : Option ℤ
  take_profit : Option ℚ
  take_profit_units : Option ℤ
  custom_parameters : Option CustomParams
  wait_before : Option ℚ
deriving DecidableEq

/-- An order intent with only the four required fields set; all optional
keys absent. -/
def baseIntent : OrderIntent :=
  { action := "market_open_long"
    name := "order"
    pair := "ETH_USD"
    wallet := "trader_1"
    size_usd := none
    size_units := none
    collateral_usd := none
    collateral_units := none
    price := none
    price_units := none
    is_long := none
    is_increase := none
    is_market := none
    can_execute_above_price := none
    stop_loss := none
    stop_loss_units := none
    take_profit := none
    take_profit_units := none
    custom_parameters := none
    wait_before := none }

/-- One compiled transaction argument (models TransactionArgument with
its serializer kind: address / u64 / bool). -/
inductive TxArg where
  | addr (a : String)
  | u64 (v : ℤ)
  | boolean (b : Bool)
deriving DecidableEq

/-- The fixed secondary recipient, always the zero address. -/
def zeroAddress : String := "0x0"

/-- Which decimals field of the network config usd_to_units selects via
its decimal_type string argument. -/
inductive DecimalType where
  | size
  | collateral
deriving DecidableEq

/-- Lookup of network_config[f"{decimal_type}_decimals"]. -/
def NetworkConfig.decimalsOf (net : NetworkConfig) : DecimalType → ℕ
  | .size => net.size_decimals
  | .collateral => net.collateral_decimals

/-- The unit converter shared by usd_to_units and price_to_units:
`int(amount * (10 ** decimals))` in AdvancedTradingEngine. -/
def to_units (amount : ℚ) (decimals : ℕ) : ℤ :=
  ratTrunc (amount * 10 ^ decimals)

/-- AdvancedTradingEngine.usd_to_units. -/
def usd_to_units (net : NetworkConfig) (usd_amount : ℚ) (decimal_type : DecimalType) : ℤ :=
  to_units usd_amount (net.decimalsOf decimal_type)

/-- AdvancedTradingEngine.price_to_units. -/
def price_to_units (net : NetworkConfig) (price : ℚ) : ℤ :=
  to_units price net.price_decimals

/-- AdvancedTradingEngine.get_size_units. -/
def get_size_units (net : NetworkConfig) (cfg : OrderIntent) (pair : PairConfig) : ℤ :=
  match cfg.size_units with
  | some u => u
  | none =>
    match cfg.size_usd with
    | some x => usd_to_units net x .size
    | none => usd_to_units net pair.default_size_usd .size

/-- AdvancedTradingEngine.get_collateral_units. -/
def get_collateral_units (net : NetworkConfig) (cfg : OrderIntent) (pair : PairConfig) : ℤ :=
  match cfg.collateral_units with
  | some u => u
  | none =>
    match cfg.collateral_usd with
    | some x => usd_to_units net x .collateral
    | none => usd_to_units net pair.default_collateral_usd .collateral

/-- AdvancedTradingEngine.get_price_units. -/
def get_price_units (net : NetworkConfig) (cfg : OrderIntent) (pair : PairConfig) : ℤ :=
  match cfg.price_units with
  | some u => u
  | none =>
    match cfg.price with
    | some x => price_to_units net x
    | none => price_to_units net pair.default_price

/-- AdvancedTradingEngine.get_stop_loss_units: a present stop_loss USD
value is converted only when strictly positive, otherwise 0. -/
def get_stop_loss_units (net : NetworkConfig) (cfg : OrderIntent) : ℤ :=
  match cfg.stop_loss_units with
  | some u => u
  | none =>
    match cfg.stop_loss with
    | some x => if 0 < x then price_to_units net x else 0
    | none => 0

/-- AdvancedTradingEngine.get_take_profit_units. -/
def get_take_profit_units (net : NetworkConfig) (cfg : OrderIntent) : ℤ :=
  match cfg.take_profit_units with
  | some u => u
  | none =>
    match cfg.take_profit with
    | some x => if 0 < x then price_to_units net x else 0
    | none => 0

/-- The action_map table of parse_action_flags: defaults for
(is_long, is_increase, is_market); ambiguous actions read manual flags
from the intent with long/market defaulting to true.  Returns none for
an unrecognized action. -/
def actionDefaults (cfg : OrderIntent) (action : String) : Option (Bool × Bool × Bool) :=
  if action = "market_open_long" then some (true, true, true)
  else if action = "market_open_short" then some (false, true, true)
  else if action = "limit_open_long" then some (true, true, false)
  else if action = "limit_open_short" then some (false, true, false)
  else if action = "market_close_long" then some (true, false, true)
  else if action = "market_close_short" then some (false, false, true)
  else if action = "limit_close_long" then some (true, false, false)
  else if action = "limit_close_short" then some (false, false, false)
  else if action = "add_to_position" then some (cfg.is_long.getD true, true, cfg.is_market.getD true)
  else if action = "add_collateral" then some (cfg.is_long.getD true, true, true)
  else if action = "partial_close" then some (cfg.is_long.getD true, false, cfg.is_market.getD true)
  else if action = "full_close" then some (cfg.is_long.getD true, false, cfg.is_market.getD true)
  else if action = "custom" then
    some (cfg.is_long.getD true, cfg.is_increase.getD true, cfg.is_market.getD true)
  else none

/-- The 13 recognized action strings (keys of action_map). -/
def recognizedActions : List String :=
  ["market_open_long", "market_open_short", "limit_open_long", "limit_open_short",
   "market_close_long", "market_close_short", "limit_close_long", "limit_close_short",
   "add_to_position", "add_collateral", "partial_close", "full_close", "custom"]

/-- AdvancedTradingEngine.parse_action_flags: table lookup, then manual
overrides applied unconditionally to each flag. -/
def parse_action_flags (action : String) (cfg : OrderIntent) : Except String (Bool × Bool × Bool) :=
  match actionDefaults cfg action with
  | none => .error ("Unknown action: " ++ action)
  | some (default_long, default_increase, default_market) =>
    .ok (cfg.is_long.getD default_long,
         cfg.is_increase.getD default_increase,
         cfg.is_market.getD default_market)

/-- AdvancedTradingEngine.calculate_execution_guard (is_market is
received but never read, as in the source). -/
def calculate_execution_guard (is_long is_increase _is_market : Bool) : Bool :=
  if is_increase && is_long then false
  else if is_increase && !is_long then true
  else if !is_increase && is_long then true
  else false

/-- The required_fields list of build_custom_order_arguments, in the
order the Python loop checks them. -/
def requiredCustomFields : List String :=
  ["size_units", "collateral_units", "price_units",
   "is_long", "is_increase", "is_market", "can_execute_above_price"]

/-- Whether the custom_parameters object lacks the named required key
(`field not in custom_params` in the Python loop). -/
def customFieldMissing (cp : CustomParams) (f : String) : Bool :=
  if f = "size_units" then cp.size_units.isNone
  else if f = "collateral_units" then cp.collateral_units.isNone
  else if f = "price_units" then cp.price_units.isNone
  else if f = "is_long" then cp.is_long.isNone
  else if f = "is_increase" then cp.is_increase.isNone
  else if f = "is_market" then cp.is_market.isNone
  else if f = "can_execute_above_price" then cp.can_execute_above_price.isNone
  else false

/-- The first required key absent from custom_parameters, if any: the
Python loop raises on the first missing field. -/
def firstMissingCustomField (cp : CustomParams) : Option String :=
  requiredCustomFields.find? (customFieldMissing cp)

/-- AdvancedTradingEngine.build_custom_order_arguments: validate the
seven required keys, then pass every value through verbatim;
stop_loss_units and take_profit_units default to 0 when absent. -/
def build_custom_order_arguments (wallet : WalletConfig) (cp : CustomParams) :
    Except String (List TxArg) :=
  match firstMissingCustomField cp with
  | some f => .error ("Custom order missing required field: " ++ f)
  | none =>
    .ok [.addr wallet.address,
         .u64 (cp.size_units.getD 0),
         .u64 (cp.collateral_units.getD 0),
         .u64 (cp.price_units.getD 0),
         .boolean (cp.is_long.getD true),
         .boolean (cp.is_increase.getD true),
         .boolean (cp.is_market.getD true),
         .u64 (cp.stop_loss_units.getD 0),
         .u64 (cp.take_profit_units.getD 0),
         .boolean (cp.can_execute_above_price.getD true),
         .addr zeroAddress]

/-- AdvancedTradingEngine.build_standard_order_arguments: resolve the
five unit fields, resolve the flags from the action, resolve the guard
(explicit value, else auto-calculated table value when enabled, else
true) and emit the eleven-argument sequence. -/
def build_standard_order_arguments (main : MainConfig) (net : NetworkConfig)
    (pair : PairConfig) (wallet : WalletConfig) (cfg : OrderIntent) :
    Except String (List TxArg) :=
  let size_units := get_size_units net cfg pair
  let collateral_units := get_collateral_units net cfg pair
  let price_units := get_price_units net cfg pair
  let stop_loss_units := get_stop_loss_units net cfg
  let take_profit_units := get_take_profit_units net cfg
  match parse_action_flags cfg.action cfg with
  | .error e => .error e
  | .ok (is_long, is_increase, is_market) =>
    let can_execute_above :=
      match cfg.can_execute_above_price with
      | some b => b
      | none =>
        if main.auto_calculate_execution_guard then
          calculate_execution_guard is_long is_increase is_market
        else true
    .ok [.addr wallet.address,
         .u64 size_units,
         .u64 collateral_units,
         .u64 price_units,
         .boolean is_long,
         .boolean is_increase,
         .boolean is_market,
         .u64 stop_loss_units,
         .u64 take_profit_units,
         .boolean can_execute_above,
         .addr zeroAddress]

/-- AdvancedTradingEngine.build_order_arguments: the custom path is
taken exactly when the intent carries custom_parameters. -/
def build_order_arguments (main : MainConfig) (net : NetworkConfig)
    (pair : PairConfig) (wallet : WalletConfig) (cfg : OrderIntent) :
    Except String (List TxArg) :=
  match cfg.custom_parameters with
  | some cp => build_custom_order_arguments wallet cp
  | none => build_standard_order_arguments main net pair wallet cfg

/-- Observable events of the strategy cycle driver: one submission
attempt per order (AdvancedTradeExecutor.execute_order), the sleep
between orders inside a cycle, the sleep between cycles, and the
optional per-order wait_before sleep. -/
inductive BotEvent where
  | attempt (name : String)
  | waitBefore (seconds : ℚ)
  | interOrderDelay
  | interCycleDelay
deriving DecidableEq

/-- Events of executing one order: wait_before sleep when positive, then
one submission attempt (the attempt happens whether or not submission
succeeds, since execute_order catches failures). -/
def orderTrace (o : OrderIntent) : List BotEvent :=
  (if 0 < o.wait_before.getD 0 then [.waitBefore (o.wait_before.getD 0)] else [])
  ++ [.attempt o.name]

/-- Events of AdvancedTradeExecutor.execute_strategy: the orders in
sequence, with the inter-order delay after every order except the last
(`if i < len(orders)`). -/
def strategyTrace : List OrderIntent → List BotEvent
  | [] => []
  | [o] => orderTrace o
  | o :: rest => orderTrace o ++ [.interOrderDelay] ++ strategyTrace rest

/-- Events of AdvancedDexlynTradingBot.run with a finite non-negative
cycle count: execute the strategy once per cycle, sleeping between
cycles exactly when further cycles remain (`cycle_count < cycles`). -/
def runTrace (orders : List OrderIntent) : ℕ → List BotEvent
  | 0 => []
  | n + 1 =>
    strategyTrace orders ++
      (if n = 0 then [] else .interCycleDelay :: runTrace orders n)

/-- Recognizer for submission-attempt events. -/
def isAttempt : BotEvent → Bool
  | .attempt _ => true
  | _ => false

/-! ### Helper lemmas -/

theorem ratTrunc_eq_floor_of_nonneg (q : ℚ) (h : 0 ≤ q) : ratTrunc q = ⌊q⌋ := by
  simp [ratTrunc, h]

theorem ratTrunc_intCast (n : ℤ) : ratTrunc (n : ℚ) = n := by
  unfold ratTrunc
  rcases le_or_lt 0 ((n : ℚ)) with h | h
  · simp [h]
  · simp [not_le.mpr h]

theorem to_units_int (amount : ℚ) (d : ℕ) (n : ℤ) (h : amount * 10 ^ d = (n : ℚ)) :
    to_units amount d = n := by
  rw [to_units, h, ratTrunc_intCast]

end Dexlyn

deriving instance DecidableEq for Except

namespace Dexlyn

/-- The end-to-end example intent: market_open_long with USD amounts
300 / 3 / 3500 and stop loss 3150, take profit 3850. -/
def c1Intent : OrderIntent :=
  { baseIntent with
    action := "market_open_long"
    size_usd := some 300
    collateral_usd := some 3
    price := some 3500
    stop_loss := some 3150
    take_profit := some 3850 }

/-- C1: the intent {action: market_open_long, size_usd: 300, collateral_usd: 3,
price: 3500, stop_loss: 3150, take_profit: 3850} compiled on the standard path
against testnet decimals (6/6/10) with auto-calculate-guard enabled yields
size=300000000, collateral=3000000, price=35000000000000, is_long=true,
is_increase=true, is_market=true, stop_loss=31500000000000,
take_profit=38500000000000 and can_execute_above_price=false. -/
theorem c1_end_to_end_compile :
    build_order_arguments defaultMainConfig testnetConfig ethPair trader1 c1Intent =
      .ok [.addr "0xyourownaddresshere", .u64 300000000, .u64 3000000,
           .u64 35000000000000, .boolean true, .boolean true, .boolean true,
           .u64 31500000000000, .u64 38500000000000, .boolean false,
           .addr zeroAddress] := by
  have hs : to_units (300 : ℚ) 6 = 300000000 := to_units_int _ _ _ (by norm_num)
  have hc : to_units (3 : ℚ) 6 = 3000000 := to_units_int _ _ _ (by norm_num)
  have hp : to_units (3500 : ℚ) 10 = 35000000000000 := to_units_int _ _ _ (by norm_num)
  have hsl : to_units (3150 : ℚ) 10 = 31500000000000 := to_units_int _ _ _ (by norm_num)
  have htp : to_units (3850 : ℚ) 10 = 38500000000000 := to_units_int _ _ _ (by norm_num)
  norm_num [build_order_arguments, build_standard_order_arguments, get_size_units,
    get_collateral_units, get_price_units, get_stop_loss_units, get_take_profit_units,
    usd_to_units, price_to_units, NetworkConfig.decimalsOf, parse_action_flags,
    actionDefaults, calculate_execution_guard, c1Intent, baseIntent, testnetConfig,
    ethPair, defaultMainConfig, trader1, hs, hc, hp, hsl, htp]

/-- C8: for every non-negative amount and decimals, the unit converter
computes floor(amount * 10^decimals); in particular to_units 300 6 =
300000000.  No rounding beyond truncation occurs. -/
theorem to_units_floor_spec :
    (∀ (amount : ℚ) (decimals : ℕ), 0 ≤ amount →
      to_units amount decimals = ⌊amount * 10 ^ decimals⌋) ∧
    to_units 300 6 = 300000000 := by
  constructor
  · intro amount decimals h
    exact ratTrunc_eq_floor_of_nonneg _ (mul_nonneg h (by positivity))
  · exact to_units_int _ _ _ (by norm_num)

/-- Witness for C8 at amount 300, decimals 6. -/
theorem to_units_floor_spec_witness :
    to_units 300 6 = ⌊(300 : ℚ) * 10 ^ 6⌋ :=
  to_units_floor_spec.1 300 6 (by norm_num)

/-- C4: with no overrides each of the 13 recognized actions resolves to
its documented triple (ambiguous actions defaulting to long/market), and
every unrecognized action string fails with an unknown-action error. -/
theorem parse_action_flags_table :
    (parse_action_flags "market_open_long" baseIntent = .ok (true, true, true) ∧
     parse_action_flags "market_open_short" baseIntent = .ok (false, true, true) ∧
     parse_action_flags "limit_open_long" baseIntent = .ok (true, true, false) ∧
     parse_action_flags "limit_open_short" baseIntent = .ok (false, true, false) ∧
     parse_action_flags "market_close_long" baseIntent = .ok (true, false, true) ∧
     parse_action_flags "market_close_short" baseIntent = .ok (false, false, true) ∧
     parse_action_flags "limit_close_long" baseIntent = .ok (true, false, false) ∧
     parse_action_flags "limit_close_short" baseIntent = .ok (false, false, false) ∧
     parse_action_flags "add_to_position" baseIntent = .ok (true, true, true) ∧
     parse_action_flags "add_collateral" baseIntent = .ok (true, true, true) ∧
     parse_action_flags "partial_close" baseIntent = .ok (true, false, true) ∧
     parse_action_flags "full_close" baseIntent = .ok (true, false, true) ∧
     parse_action_flags "custom" baseIntent = .ok (true, true, true)) ∧
    ∀ (a : String) (cfg : OrderIntent), a ∉ recognizedActions →
      parse_action_flags a cfg = .error ("Unknown action: " ++ a) := by
  constructor
  · refine ⟨?_, ?_, ?_, ?_, ?_, ?_, ?_, ?_, ?_, ?_, ?_, ?_, ?_⟩ <;> decide
  · intro a cfg h
    simp only [recognizedActions, List.mem_cons, List.not_mem_nil, or_false, not_or] at h
    obtain ⟨h1, h2, h3, h4, h5, h6, h7, h8, h9, h10, h11, h12, h13⟩ := h
    simp [parse_action_flags, actionDefaults, h1, h2, h3, h4, h5, h6, h7, h8, h9,
      h10, h11, h12, h13]

/-- Witness for C4 at the unrecognized action string "unknown_action". -/
theorem parse_action_flags_table_witness :
    parse_action_flags "unknown_action" baseIntent =
      .error "Unknown action: unknown_action" :=
  parse_action_flags_table.2 "unknown_action" baseIntent (by decide)

/-- C5: whenever action resolution succeeds, each explicitly supplied
boolean override (is_long / is_increase / is_market) is returned verbatim,
regardless of the action table default. -/
theorem parse_action_flags_override_wins :
    ∀ (action : String) (cfg : OrderIntent) (l i m : Bool),
      parse_action_flags action cfg = .ok (l, i, m) →
      (∀ b, cfg.is_long = some b → l = b) ∧
      (∀ b, cfg.is_increase = some b → i = b) ∧
      (∀ b, cfg.is_market = some b → m = b) := by
  intro action cfg l i m h
  unfold parse_action_flags at h
  cases hd : actionDefaults cfg action with
  | none => rw [hd] at h; exact absurd h (by simp)
  | some d =>
    obtain ⟨dl, di, dm⟩ := d
    rw [hd] at h
    simp only [Except.ok.injEq, Prod.mk.injEq] at h
    obtain ⟨hl, hi, hm⟩ := h
    refine ⟨?_, ?_, ?_⟩ <;> intro b hb
    · rw [← hl, hb, Option.getD_some]
    · rw [← hi, hb, Option.getD_some]
    · rw [← hm, hb, Option.getD_some]

/-- C2 counterexample input: an intent whose stop_loss USD field is
present (value -1) with no stop_loss_units. -/
def c2cexIntent : OrderIntent := { baseIntent with stop_loss := some (-1) }

/-- C2 counterexample: the claimed uniform precedence chain fails for
stop_loss: the USD field is present, yet the resolved unit value is 0
rather than the Unit-Converter conversion of that field. -/
theorem stop_loss_precedence_cex :
    c2cexIntent.stop_loss = some (-1) ∧
    c2cexIntent.stop_loss_units = none ∧
    get_stop_loss_units testnetConfig c2cexIntent = 0 ∧
    price_to_units testnetConfig (-1) = -10000000000 ∧
    get_stop_loss_units testnetConfig c2cexIntent ≠ price_to_units testnetConfig (-1) := by
  have hconv : price_to_units testnetConfig (-1) = -10000000000 := by
    rw [price_to_units]
    exact to_units_int _ _ _ (by norm_num [testnetConfig])
  have hres : get_stop_loss_units testnetConfig c2cexIntent = 0 := by
    norm_num [get_stop_loss_units, c2cexIntent, baseIntent]
  exact ⟨rfl, rfl, hres, hconv, by rw [hres, hconv]; decide⟩

/-- C2 (amended): size, collateral and price follow the three-level
precedence chain (explicit units > explicit USD/price converted at that
field's network decimals > pair-config default converted); stop_loss and
take_profit have no pair-config default: explicit units win, a present
USD value is converted only when strictly positive, and the result is 0
otherwise. -/
theorem unit_field_precedence :
    ∀ (net : NetworkConfig) (cfg : OrderIntent) (pair : PairConfig),
      (∀ u, cfg.size_units = some u → get_size_units net cfg pair = u) ∧
      (∀ x, cfg.size_units = none → cfg.size_usd = some x →
        get_size_units net cfg pair = to_units x net.size_decimals) ∧
      (cfg.size_units = none → cfg.size_usd = none →
        get_size_units net cfg pair = to_units pair.default_size_usd net.size_decimals) ∧
      (∀ u, cfg.collateral_units = some u → get_collateral_units net cfg pair = u) ∧
      (∀ x, cfg.collateral_units = none → cfg.collateral_usd = some x →
        get_collateral_units net cfg pair = to_units x net.collateral_decimals) ∧
      (cfg.collateral_units = none → cfg.collateral_usd = none →
        get_collateral_units net cfg pair =
          to_units pair.default_collateral_usd net.collateral_decimals) ∧
      (∀ u, cfg.price_units = some u → get_price_units net cfg pair = u) ∧
      (∀ x, cfg.price_units = none → cfg.price = some x →
        get_price_units net cfg pair = to_units x net.price_decimals) ∧
      (cfg.price_units = none → cfg.price = none →
        get_price_units net cfg pair = to_units pair.default_price net.price_decimals) ∧
      (∀ u, cfg.stop_loss_units = some u → get_stop_loss_units net cfg = u) ∧
      (∀ x, cfg.stop_loss_units = none → cfg.stop_loss = some x → 0 < x →
        get_stop_loss_units net cfg = to_units x net.price_decimals) ∧
      (∀ x, cfg.stop_loss_units = none → cfg.stop_loss = some x → ¬ 0 < x →
        get_stop_loss_units net cfg = 0) ∧
      (cfg.stop_loss_units = none → cfg.stop_loss = none →
        get_stop_loss_units net cfg = 0) ∧
      (∀ u, cfg.take_profit_units = some u → get_take_profit_units net cfg = u) ∧
      (∀ x, cfg.take_profit_units = none → cfg.take_profit = some x → 0 < x →
        get_take_profit_units net cfg = to_units x net.price_decimals) ∧
      (∀ x, cfg.take_profit_units = none → cfg.take_profit = some x → ¬ 0 < x →
        get_take_profit_units net cfg = 0) ∧
      (cfg.take_profit_units = none → cfg.take_profit = none →
        get_take_profit_units net cfg = 0) := by
  intro net cfg pair
  refine ⟨?_, ?_, ?_, ?_, ?_, ?_, ?_, ?_, ?_, ?_, ?_, ?_, ?_, ?_, ?_, ?_, ?_⟩ <;>
    intros <;>
    simp_all [get_size_units, get_collateral_units, get_price_units,
      get_stop_loss_units, get_take_profit_units, usd_to_units, price_to_units,
      NetworkConfig.decimalsOf]

/-- C2 precedence example input: both size_units 100 and size_usd 50. -/
def bothSizeIntent : OrderIntent :=
  { baseIntent with size_units := some 100, size_usd := some 50 }

/-- Witness for the amended C2: with both size_units 100 and size_usd 50
present, the compiled size unit is 100 (units field wins). -/
theorem unit_field_precedence_witness :
    get_size_units testnetConfig bothSizeIntent ethPair = 100 :=
  (unit_field_precedence testnetConfig bothSizeIntent ethPair).1 100 (by decide)

/-- C3 counterexample input: negative size_usd and collateral_usd. -/
def negIntent : OrderIntent :=
  { baseIntent with size_usd := some (-5), collateral_usd := some (-2) }

/-- C3 counterexample: compiling an intent with negative size_usd and
collateral_usd raises no validation error; it succeeds and produces the
negative unit values -5000000 and -2000000. -/
theorem negative_amount_no_error_cex :
    build_order_arguments defaultMainConfig testnetConfig ethPair trader1 negIntent =
      .ok [.addr "0xyourownaddresshere", .u64 (-5000000), .u64 (-2000000),
           .u64 35000000000000, .boolean true, .boolean true, .boolean true,
           .u64 0, .u64 0, .boolean false, .addr zeroAddress] := by
  have hs : to_units (-5 : ℚ) 6 = -5000000 := to_units_int _ _ _ (by norm_num)
  have hc : to_units (-2 : ℚ) 6 = -2000000 := to_units_int _ _ _ (by norm_num)
  have hp : to_units (3500 : ℚ) 10 = 35000000000000 := to_units_int _ _ _ (by norm_num)
  norm_num [build_order_arguments, build_standard_order_arguments, get_size_units,
    get_collateral_units, get_price_units, get_stop_loss_units, get_take_profit_units,
    usd_to_units, price_to_units, NetworkConfig.decimalsOf, parse_action_flags,
    actionDefaults, calculate_execution_guard, negIntent, baseIntent, testnetConfig,
    ethPair, defaultMainConfig, trader1, hs, hc, hp]

/-- C3 (amended): unit conversion applies no sign validation; a negative
size_usd or collateral_usd is converted by the same truncation formula,
and standard compilation succeeds, carrying the negative unit values. -/
theorem usd_to_units_no_validation :
    ∀ (main : MainConfig) (net : NetworkConfig) (pair : PairConfig) (w : WalletConfig)
      (cfg : OrderIntent) (x y : ℚ) (l i m : Bool),
      cfg.size_units = none → cfg.size_usd = some x →
      cfg.collateral_units = none → cfg.collateral_usd = some y →
      parse_action_flags cfg.action cfg = .ok (l, i, m) →
      ∃ args, build_standard_order_arguments main net pair w cfg = .ok args ∧
        args[1]? = some (.u64 (to_units x net.size_decimals)) ∧
        args[2]? = some (.u64 (to_units y net.collateral_decimals)) := by
  intro main net pair w cfg x y l i m hsu hsx hcu hcy hparse
  have h1 : get_size_units net cfg pair = to_units x net.size_decimals := by
    simp [get_size_units, hsu, hsx, usd_to_units, NetworkConfig.decimalsOf]
  have h2 : get_collateral_units net cfg pair = to_units y net.collateral_decimals := by
    simp [get_collateral_units, hcu, hcy, usd_to_units, NetworkConfig.decimalsOf]
  simp only [build_standard_order_arguments, hparse]
  exact ⟨_, rfl, by rw [← h1]; rfl, by rw [← h2]; rfl⟩

/-- Witness for the amended C3 at size_usd -5, collateral_usd -2. -/
theorem usd_to_units_no_validation_witness :
    ∃ args,
      build_standard_order_arguments defaultMainConfig testnetConfig ethPair trader1
        negIntent = .ok args ∧
      args[1]? = some (.u64 (to_units (-5) testnetConfig.size_decimals)) ∧
      args[2]? = some (.u64 (to_units (-2) testnetConfig.collateral_decimals)) :=
  usd_to_units_no_validation defaultMainConfig testnetConfig ethPair trader1 negIntent
    (-5) (-2) true true true rfl rfl rfl rfl (by decide)

/-- The spec example intent for C5: market_open_long with is_long
overridden to false. -/
def overrideIntent : OrderIntent := { baseIntent with is_long := some false }

/-- Witness for C5: resolve("market_open_long", {is_long: false}) =
(false, true, true) and the override is returned. -/
theorem parse_action_flags_override_wins_witness :
    parse_action_flags "market_open_long" overrideIntent = .ok (false, true, true) ∧
    false = false :=
  ⟨by decide,
   (parse_action_flags_override_wins "market_open_long" overrideIntent false true true
     (by decide)).1 false (by decide)⟩

/-- C6: the execution-guard table is total on the 4 (is_increase,
is_long) combinations and matches the fixed truth table for any value of
the unused is_market argument; on the standard path the guard element of
the compiled arguments is the explicit intent value when present, the
table value when absent and auto-calculate is enabled, and true when
absent and auto-calculate is disabled. -/
theorem execution_guard_spec :
    ((∀ m, calculate_execution_guard true true m = false) ∧
     (∀ m, calculate_execution_guard false true m = true) ∧
     (∀ m, calculate_execution_guard true false m = true) ∧
     (∀ m, calculate_execution_guard false false m = false)) ∧
    ∀ (main : MainConfig) (net : NetworkConfig) (pair : PairConfig) (w : WalletConfig)
      (cfg : OrderIntent) (l i m : Bool) (args : List TxArg),
      parse_action_flags cfg.action cfg = .ok (l, i, m) →
      build_standard_order_arguments main net pair w cfg = .ok args →
      ((∀ b, cfg.can_execute_above_price = some b → args[9]? = some (.boolean b)) ∧
       (cfg.can_execute_above_price = none → main.auto_calculate_execution_guard = true →
         args[9]? = some (.boolean (calculate_execution_guard l i m))) ∧
       (cfg.can_execute_above_price = none → main.auto_calculate_execution_guard = false →
         args[9]? = some (.boolean true))) := by
  constructor
  · exact ⟨by decide, by decide, by decide, by decide⟩
  · intro main net pair w cfg l i m args hparse hbuild
    simp only [build_standard_order_arguments, hparse, Except.ok.injEq] at hbuild
    subst hbuild
    refine ⟨?_, ?_, ?_⟩
    · intro b hb
      simp only [hb]
      rfl
    · intro hnone hauto
      simp only [hnone, hauto]
      rfl
    · intro hnone hauto
      simp only [hnone, hauto]
      rfl

/-- Witness for C6: an intent with no explicit guard under the enabled
auto-calculate flag compiles to the table guard value. -/
theorem execution_guard_spec_witness :
    calculate_execution_guard true true true = false ∧
    ∃ args,
      build_standard_order_arguments defaultMainConfig testnetConfig ethPair trader1
        baseIntent = .ok args ∧
      args[9]? = some (.boolean (calculate_execution_guard true true true)) := by
  constructor
  · exact (execution_guard_spec.1.1) true
  · refine ⟨_, rfl, ?_⟩
    exact (execution_guard_spec.2 defaultMainConfig testnetConfig ethPair trader1
      baseIntent true true true _ (by decide) rfl).2.1 rfl rfl

/-- C7: the custom path fails with a missing-field error naming an
absent required key whenever one of the seven required keys is absent
(naming is_market when it is the first absent one); with all seven
present it succeeds, passing every value through verbatim with
stop_loss/take_profit defaulting to 0; and an intent carrying
custom_parameters always dispatches to the custom path. -/
theorem custom_path_spec :
    ∀ (w : WalletConfig) (cp : CustomParams) (cfg : OrderIntent),
      ((cp.size_units = none ∨ cp.collateral_units = none ∨ cp.price_units = none ∨
        cp.is_long = none ∨ cp.is_increase = none ∨ cp.is_market = none ∨
        cp.can_execute_above_price = none) →
        ∃ f, f ∈ requiredCustomFields ∧ customFieldMissing cp f = true ∧
          build_custom_order_arguments w cp =
            .error ("Custom order missing required field: " ++ f)) ∧
      (cp.is_market = none → cp.size_units.isSome → cp.collateral_units.isSome →
        cp.price_units.isSome → cp.is_long.isSome → cp.is_increase.isSome →
        build_custom_order_arguments w cp =
          .error "Custom order missing required field: is_market") ∧
      (∀ s c p l i m g, cp.size_units = some s → cp.collateral_units = some c →
        cp.price_units = some p → cp.is_long = some l → cp.is_increase = some i →
        cp.is_market = some m → cp.can_execute_above_price = some g →
        build_custom_order_arguments w cp =
          .ok [.addr w.address, .u64 s, .u64 c, .u64 p, .boolean l, .boolean i,
               .boolean m, .u64 (cp.stop_loss_units.getD 0),
               .u64 (cp.take_profit_units.getD 0), .boolean g, .addr zeroAddress]) ∧
      (cfg.custom_parameters = some cp →
        ∀ (main : MainConfig) (net : NetworkConfig) (pair : PairConfig),
          build_order_arguments main net pair w cfg = build_custom_order_arguments w cp) := by
  intro w cp cfg
  refine ⟨?_, ?_, ?_, ?_⟩
  · intro hmiss
    have hex : ∃ f ∈ requiredCustomFields, customFieldMissing cp f = true := by
      rcases hmiss with h | h | h | h | h | h | h
      · exact ⟨"size_units", by simp [requiredCustomFields], by simp [customFieldMissing, h]⟩
      · exact ⟨"collateral_units", by simp [requiredCustomFields],
          by simp [customFieldMissing, h]⟩
      · exact ⟨"price_units", by simp [requiredCustomFields],
          by simp [customFieldMissing, h]⟩
      · exact ⟨"is_long", by simp [requiredCustomFields], by simp [customFieldMissing, h]⟩
      · exact ⟨"is_increase", by simp [requiredCustomFields],
          by simp [customFieldMissing, h]⟩
      · exact ⟨"is_market", by simp [requiredCustomFields], by simp [customFieldMissing, h]⟩
      · exact ⟨"can_execute_above_price", by simp [requiredCustomFields],
          by simp [customFieldMissing, h]⟩
    have hsome : (firstMissingCustomField cp).isSome := by
      rw [firstMissingCustomField, List.find?_isSome]
      exact hex
    obtain ⟨f, hf⟩ := Option.isSome_iff_exists.mp hsome
    refine ⟨f, ?_, ?_, ?_⟩
    · exact List.mem_of_find?_eq_some hf
    · exact List.find?_some hf
    · rw [build_custom_order_arguments, hf]
  · intro hmkt h1 h2 h3 h4 h5
    obtain ⟨s, hs⟩ := Option.isSome_iff_exists.mp h1
    obtain ⟨c, hc⟩ := Option.isSome_iff_exists.mp h2
    obtain ⟨p, hp⟩ := Option.isSome_iff_exists.mp h3
    obtain ⟨l, hl⟩ := Option.isSome_iff_exists.mp h4
    obtain ⟨i, hi⟩ := Option.isSome_iff_exists.mp h5
    have hfind : firstMissingCustomField cp = some "is_market" := by
      simp [firstMissingCustomField, requiredCustomFields, List.find?,
        customFieldMissing, hs, hc, hp, hl, hi, hmkt]
    rw [build_custom_order_arguments, hfind]
    rfl
  · intro s c p l i m g hs hc hp hl hi hm hg
    have hfind : firstMissingCustomField cp = none := by
      simp [firstMissingCustomField, requiredCustomFields, List.find?,
        customFieldMissing, hs, hc, hp, hl, hi, hm, hg]
    rw [build_custom_order_arguments, hfind]
    simp [hs, hc, hp, hl, hi, hm, hg]
  · intro hcp main net pair
    rw [build_order_arguments, hcp]

/-- The custom_parameters object of the fully_custom example strategy. -/
def fullyCustomParams : CustomParams :=
  { size_units := some 500000000
    collateral_units := some 10000000
    price_units := some 3550000000000000
    is_long := some true
    is_increase := some true
    is_market := some false
    can_execute_above_price := some false
    stop_loss_units := some 3195000000000000
    take_profit_units := some 3905000000000000 }

/-- The same custom parameters with is_market removed. -/
def noMarketParams : CustomParams := { fullyCustomParams with is_market := none }

/-- Witness for C7: the complete custom object compiles verbatim, and
dropping is_market fails naming is_market. -/
theorem custom_path_spec_witness :
    build_custom_order_arguments trader1 fullyCustomParams =
      .ok [.addr "0xyourownaddresshere", .u64 500000000, .u64 10000000,
           .u64 3550000000000000, .boolean true, .boolean true, .boolean false,
           .u64 3195000000000000, .u64 3905000000000000, .boolean false,
           .addr zeroAddress] ∧
    build_custom_order_arguments trader1 noMarketParams =
      .error "Custom order missing required field: is_market" := by
  constructor
  · exact (custom_path_spec trader1 fullyCustomParams baseIntent).2.2.1
      500000000 10000000 3550000000000000 true true false false
      rfl rfl rfl rfl rfl rfl rfl
  · exact (custom_path_spec trader1 noMarketParams baseIntent).2.1
      rfl (by decide) (by decide) (by decide) (by decide) (by decide)

/-- First order of the C9 strategy. -/
def orderOne : OrderIntent := { baseIntent with name := "o1" }

/-- Second order of the C9 strategy. -/
def orderTwo : OrderIntent := { baseIntent with name := "o2" }

/-- Third order of the C9 strategy. -/
def orderThree : OrderIntent := { baseIntent with name := "o3" }

/-- A strategy of three orders. -/
def threeOrders : List OrderIntent := [orderOne, orderTwo, orderThree]

/-- C9 counterexample: over 2 cycles of 3 orders the inter-order delay
is applied 4 times (twice per cycle), not 5 times as claimed. -/
theorem cycle_driver_delay_count_cex :
    (runTrace threeOrders 2).count BotEvent.interOrderDelay = 4 ∧
    (runTrace threeOrders 2).count BotEvent.interOrderDelay ≠ 5 := by
  decide

/-- C9 (amended): 2 cycles of a 3-order strategy perform exactly 6
submission attempts in strict sequence, apply the inter-order delay
exactly 4 times (between consecutive orders inside each cycle) and the
inter-cycle delay exactly once. -/
theorem cycle_driver_trace :
    runTrace threeOrders 2 =
      [.attempt "o1", .interOrderDelay, .attempt "o2", .interOrderDelay, .attempt "o3",
       .interCycleDelay,
       .attempt "o1", .interOrderDelay, .attempt "o2", .interOrderDelay,
       .attempt "o3"] ∧
    (runTrace threeOrders 2).countP isAttempt = 6 ∧
    (runTrace threeOrders 2).count BotEvent.interOrderDelay = 4 ∧
    (runTrace threeOrders 2).count BotEvent.interCycleDelay = 1 := by
  decide

/-- C10: standard compilation never reads the pair min_size_usd /
max_size_usd bounds: the output is invariant under changing them, and
whenever the action resolves, compilation succeeds with the size element
equal to the precedence-chain result, regardless of the bounds. -/
theorem size_bounds_not_enforced :
    ∀ (main : MainConfig) (net : NetworkConfig) (pair : PairConfig) (w : WalletConfig)
      (cfg : OrderIntent) (lo hi : ℚ),
      (build_standard_order_arguments main net
          { pair with min_size_usd := lo, max_size_usd := hi } w cfg =
        build_standard_order_arguments main net pair w cfg) ∧
      (∀ l i m, parse_action_flags cfg.action cfg = .ok (l, i, m) →
        ∃ args, build_standard_order_arguments main net pair w cfg = .ok args ∧
          args[1]? = some (.u64 (get_size_units net cfg pair))) := by
  intro main net pair w cfg lo hi
  constructor
  · simp [build_standard_order_arguments, get_size_units, get_collateral_units,
      get_price_units]
  · intro l i m hparse
    simp only [build_standard_order_arguments, hparse]
    exact ⟨_, rfl, rfl⟩

/-- The C10 witness intent: size_usd 5, far below the ETH_USD pair
min_size_usd of 300. -/
def tinyIntent : OrderIntent := { baseIntent with size_usd := some 5 }

/-- Witness for C10: an intent with size_usd 5 compiles successfully
against the ETH_USD pair (min_size_usd 300), with the size element given
by the precedence chain. -/
theorem size_bounds_not_enforced_witness :
    (build_standard_order_arguments defaultMainConfig testnetConfig
        { ethPair with min_size_usd := 0, max_size_usd := 1 } trader1 tinyIntent =
      build_standard_order_arguments defaultMainConfig testnetConfig ethPair trader1
        tinyIntent) ∧
    ∃ args,
      build_standard_order_arguments defaultMainConfig testnetConfig ethPair trader1
        tinyIntent = .ok args ∧
      args[1]? = some (.u64 (get_size_units testnetConfig tinyIntent ethPair)) := by
  have h := size_bounds_not_enforced defaultMainConfig testnetConfig ethPair trader1
    tinyIntent 0 1
  exact ⟨h.1, h.2 true true true (by decide)⟩

end Dexlyn
